import Mathlib

/-!
Verification of the susfs userspace control-channel client and the umount
allow-list bookkeeping of this repository.

Shallow embedding conventions:
* Rust byte strings (`&str` contents, file contents, `c_char` buffers) are
  modelled as `List Nat` of unsigned byte values.  A `c_char` cell is stored
  as its unsigned byte value; the Rust `u8 as c_char` / `c_char as u8` casts
  are mutually inverse reinterpretations, so zero-scanning and byte content
  are preserved exactly.
* Machine integers are `Nat` / `Int` with explicit wrap-around (`% 2^w`,
  signed reinterpretation) where the source performs an `as` cast.
* `exit(code)` paths before the transport call are modelled as
  `Except.error code`; a record that reaches `susfs_ctl` is an `Except.ok`
  value carrying the record and the command identifier.
-/

/-! ## Protocol constants (src/userspace/ksud/src/android/susfs/cli.rs, magic.rs) -/

def KSU_INSTALL_MAGIC1 : Nat := 0xDEADBEEF

def SUSFS_MAGIC : Nat := 0xFAFAFAFA

def CMD_SUSFS_ADD_SUS_PATH : Nat := 0x55550

def CMD_SUSFS_SET_ANDROID_DATA_ROOT_PATH : Nat := 0x55551

def CMD_SUSFS_SET_SDCARD_ROOT_PATH : Nat := 0x55552

def CMD_SUSFS_ADD_SUS_PATH_LOOP : Nat := 0x55553

def CMD_SUSFS_HIDE_SUS_MNTS_FOR_NON_SU_PROCS : Nat := 0x55561

def CMD_SUSFS_ADD_SUS_KSTAT : Nat := 0x55570

def CMD_SUSFS_UPDATE_SUS_KSTAT : Nat := 0x55571

def CMD_SUSFS_ADD_SUS_KSTAT_STATICALLY : Nat := 0x55572

def CMD_SUSFS_SET_UNAME : Nat := 0x55590

def CMD_SUSFS_ENABLE_LOG : Nat := 0x555a0

def CMD_SUSFS_SET_CMDLINE_OR_BOOTCONFIG : Nat := 0x555b0

def CMD_SUSFS_ADD_OPEN_REDIRECT : Nat := 0x555c0

def CMD_SUSFS_SHOW_VERSION : Nat := 0x555e1

def CMD_SUSFS_SHOW_ENABLED_FEATURES : Nat := 0x555e2

def CMD_SUSFS_SHOW_VARIANT : Nat := 0x555e3

def CMD_SUSFS_ENABLE_AVC_LOG_SPOOFING : Nat := 0x60010

def CMD_SUSFS_ADD_SUS_MAP : Nat := 0x60020

def SUSFS_MAX_LEN_PATHNAME : Nat := 256

def SUSFS_FAKE_CMDLINE_OR_BOOTCONFIG_SIZE : Nat := 8192

def SUSFS_ENABLED_FEATURES_SIZE : Nat := 8192

def SUSFS_MAX_VERSION_BUFSIZE : Nat := 16

def SUSFS_MAX_VARIANT_BUFSIZE : Nat := 16

def NEW_UTS_LEN : Nat := 64

def ERR_CMD_NOT_SUPPORTED : Int := 126

/-- `libc::EINVAL` exit code used by the cli on local input errors. -/
def EINVAL : Nat := 22

/-! ## Machine-integer casts -/

/-- `u64 as c_uint` (u32): truncation modulo `2^32`. -/
def toU32 (n : Nat) : Nat := n % 2 ^ 32

/-- `u64 as c_longlong` (i64): two's-complement reinterpretation. -/
def toI64 (n : Nat) : Int :=
  if n % 2 ^ 64 < 2 ^ 63 then ((n % 2 ^ 64 : Nat) : Int)
  else ((n % 2 ^ 64 : Nat) : Int) - 2 ^ 64

/-- `c_ulong as c_int` (i32): two's-complement reinterpretation after truncation. -/
def toI32 (n : Nat) : Int :=
  if n % 2 ^ 32 < 2 ^ 31 then ((n % 2 ^ 32 : Nat) : Int)
  else ((n % 2 ^ 32 : Nat) : Int) - 2 ^ 32

/-! ## String encoding helpers (cli.rs) -/

/-- `str_to_c_array<N>(s, array)`: copy `min (|s|) (N-1)` bytes of `s` into the
array, write a terminating zero immediately after, leave the tail untouched.
The array is modelled by its current contents `arr` (length `N`). -/
def str_to_c_array (s arr : List Nat) : List Nat :=
  let len := min s.length (arr.length - 1)
  s.take len ++ 0 :: arr.drop (len + 1)

/-- Result-buffer decode used by the `Show` arms: scan to the first zero byte
(`position(|&b| b == 0).unwrap_or(N)`) and keep the preceding bytes. -/
def c_str_decode (arr : List Nat) : List Nat :=
  arr.takeWhile (fun b => b != 0)

/-- The byte-copy loop of the `SetCmdlineOrBootconfig` arm: overwrite the
first `content.length` cells of `buf`, keep the rest. -/
def write_bytes (content buf : List Nat) : List Nat :=
  content ++ buf.drop content.length

/-! ## Result decoding (`handle_result`) -/

/-- Outcome of `handle_result`: fall through silently (status 0), print the
"operation not supported" diagnostic carrying the command identifier and fall
through (status 126), or terminate the process with exit code `err`. -/
inductive HandleOutcome where
  | success : HandleOutcome
  | unsupported : Nat → HandleOutcome
  | exitErr : Int → HandleOutcome
deriving DecidableEq

/-- `handle_result(err, cmd)`: prints the unsupported diagnostic when
`err == ERR_CMD_NOT_SUPPORTED`; exits with code `err` when
`err != 0 && err != ERR_CMD_NOT_SUPPORTED`; otherwise returns normally. -/
def handle_result (err : Int) (cmd : Nat) : HandleOutcome :=
  if err = ERR_CMD_NOT_SUPPORTED then .unsupported cmd
  else if err ≠ 0 then .exitErr err
  else .success

/-! ## Numeric literal parsing (`parse_or_default`) -/

/-- ASCII decimal digit test. -/
def isDigit (b : Nat) : Bool := 48 ≤ b && b ≤ 57

/-- Value of a digit run, most significant first. -/
def digitsVal (l : List Nat) : Nat :=
  l.foldl (fun a b => a * 10 + (b - 48)) 0

/-- A nonempty all-digit run parses to its value; anything else is rejected. -/
def parseDigits (s : List Nat) : Option Nat :=
  if s ≠ [] ∧ s.all isDigit then some (digitsVal s) else none

/-- Rust `u64::from_str`: optional leading `+`, a nonempty digit run, value
within `u64` range. -/
def parseU64 (s : List Nat) : Option Nat :=
  let t := if s.head? = some 43 then s.tail else s
  match parseDigits t with
  | some v => if v < 2 ^ 64 then some v else none
  | none => none

/-- Rust `i64::from_str`: optional sign, a nonempty digit run, value within
`i64` range. -/
def parseI64 (s : List Nat) : Option Int :=
  if s.head? = some 45 then
    match parseDigits s.tail with
    | some v => if v ≤ 2 ^ 63 then some (-(v : Int)) else none
    | none => none
  else
    let t := if s.head? = some 43 then s.tail else s
    match parseDigits t with
    | some v => if v < 2 ^ 63 then some ((v : Int)) else none
    | none => none

/-- The byte string `"default"`. -/
def defaultStr : List Nat := [100, 101, 102, 97, 117, 108, 116]

/-- `parse_or_default::<u64>(val, default)`: the marker `"default"` resolves to
`d`; otherwise the literal must parse, else the process exits with `EINVAL`. -/
def parse_or_defaultU64 (val : List Nat) (d : Nat) : Except Nat Nat :=
  if val = defaultStr then .ok d
  else match parseU64 val with
    | some v => .ok v
    | none => .error EINVAL

/-- `parse_or_default::<i64>(val, default)`. -/
def parse_or_defaultI64 (val : List Nat) (d : Int) : Except Nat Int :=
  if val = defaultStr then .ok d
  else match parseI64 val with
    | some v => .ok v
    | none => .error EINVAL

/-- Decimal rendering of a `u64` value (Rust `Display`). -/
def natLit (n : Nat) : List Nat :=
  if n = 0 then [48] else ((Nat.digits 10 n).map (fun d => d + 48)).reverse

/-- Decimal rendering of an `i64` value (Rust `Display`). -/
def intLit (i : Int) : List Nat :=
  if i < 0 then 45 :: natLit i.natAbs else natLit i.natAbs

/-! ## UTF-8 validity (Rust `String::from_utf8`) -/

/-- UTF-8 continuation byte. -/
def isCont (b : Nat) : Bool := 128 ≤ b && b ≤ 191

/-- Constraint on the byte following a multi-byte lead (excludes overlong
encodings and surrogates, restricts the top of the code-point range). -/
def utf8Second (b c : Nat) : Bool :=
  if b = 224 then 160 ≤ c && c ≤ 191
  else if b = 237 then 128 ≤ c && c ≤ 159
  else if b = 240 then 144 ≤ c && c ≤ 191
  else if b = 244 then 128 ≤ c && c ≤ 143
  else isCont c

/-- Standard UTF-8 validity of a byte sequence, as checked by
`String::from_utf8`. -/
def utf8Valid : List Nat → Bool
  | [] => true
  | b :: rest =>
    if b ≤ 127 then utf8Valid rest
    else if 194 ≤ b && b ≤ 223 then
      match rest with
      | c1 :: rest1 => utf8Second b c1 && utf8Valid rest1
      | [] => false
    else if 224 ≤ b && b ≤ 239 then
      match rest with
      | c1 :: c2 :: rest2 => utf8Second b c1 && isCont c2 && utf8Valid rest2
      | _ => false
    else if 240 ≤ b && b ≤ 244 then
      match rest with
      | c1 :: c2 :: c3 :: rest3 => utf8Second b c1 && isCont c2 && isCont c3 && utf8Valid rest3
      | _ => false
    else false

/-- The fallback text `"<invalid>"` substituted for non-UTF-8 result bytes. -/
def invalidStr : List Nat := [60, 105, 110, 118, 97, 108, 105, 100, 62]

/-- The fixed fallback text `"unsupport"` of the version query. -/
def unsupportStr : List Nat := [117, 110, 115, 117, 112, 112, 111, 114, 116]

/-! ## Record types (cli.rs `#[repr(C)]` structs) -/

/-- Filesystem metadata of a path as supplied by `fs::metadata`
(`std::os::unix::fs::MetadataExt`).  `ino`, `dev`, `nlink`, `size`,
`blksize`, `blocks` are `u64` values, `uid` is `u32`, the six time fields
are `i64` values. -/
structure Metadata where
  ino : Nat
  dev : Nat
  nlink : Nat
  size : Nat
  uid : Nat
  atime : Int
  atime_nsec : Int
  mtime : Int
  mtime_nsec : Int
  ctime : Int
  ctime_nsec : Int
  blksize : Nat
  blocks : Nat

structure SusfsSusPath where
  target_ino : Nat
  target_pathname : List Nat
  i_uid : Nat
  err : Int

structure ExternalDir where
  target_pathname : List Nat
  is_inited : Bool
  cmd : Int
  err : Int

structure SusfsHideSusMnts where
  enabled : Bool
  err : Int

structure SusfsSusKstat where
  is_statically : Bool
  target_ino : Nat
  target_pathname : List Nat
  spoofed_ino : Nat
  spoofed_dev : Nat
  spoofed_nlink : Nat
  spoofed_size : Int
  spoofed_atime_tv_sec : Int
  spoofed_mtime_tv_sec : Int
  spoofed_ctime_tv_sec : Int
  spoofed_atime_tv_nsec : Int
  spoofed_mtime_tv_nsec : Int
  spoofed_ctime_tv_nsec : Int
  spoofed_blksize : Nat
  spoofed_blocks : Nat
  err : Int

structure SusfsUname where
  release : List Nat
  version : List Nat
  err : Int

structure SusfsLog where
  enabled : Bool
  err : Int

structure SusfsSpoofCmdline where
  fake_cmdline_or_bootconfig : List Nat
  err : Int

structure SusfsOpenRedirect where
  target_ino : Nat
  target_pathname : List Nat
  redirected_pathname : List Nat
  err : Int

structure SusfsSusMap where
  target_pathname : List Nat
  err : Int

structure SusfsAvcLogSpoofing where
  enabled : Bool
  err : Int

structure SusfsEnabledFeatures where
  enabled_features : List Nat
  err : Int

structure SusfsVariant where
  susfs_variant : List Nat
  err : Int

structure SusfsVersion where
  susfs_version : List Nat
  err : Int

/-- The zero-initialised (`Default` / array-literal) `SusfsSusKstat`. -/
def susKstatDefault : SusfsSusKstat :=
  { is_statically := false
    target_ino := 0
    target_pathname := List.replicate SUSFS_MAX_LEN_PATHNAME 0
    spoofed_ino := 0
    spoofed_dev := 0
    spoofed_nlink := 0
    spoofed_size := 0
    spoofed_atime_tv_sec := 0
    spoofed_mtime_tv_sec := 0
    spoofed_ctime_tv_sec := 0
    spoofed_atime_tv_nsec := 0
    spoofed_mtime_tv_nsec := 0
    spoofed_ctime_tv_nsec := 0
    spoofed_blksize := 0
    spoofed_blocks := 0
    err := 0 }

/-- `copy_metadata_to_sus_kstat`: copy the twelve spoofed fields from the real
metadata, with the source's `as` casts. -/
def copy_metadata_to_sus_kstat (info : SusfsSusKstat) (md : Metadata) : SusfsSusKstat :=
  { info with
    spoofed_ino := md.ino
    spoofed_dev := md.dev
    spoofed_nlink := toU32 md.nlink
    spoofed_size := toI64 md.size
    spoofed_atime_tv_sec := md.atime
    spoofed_mtime_tv_sec := md.mtime
    spoofed_ctime_tv_sec := md.ctime
    spoofed_atime_tv_nsec := md.atime_nsec
    spoofed_mtime_tv_nsec := md.mtime_nsec
    spoofed_ctime_tv_nsec := md.ctime_nsec
    spoofed_blksize := md.blksize
    spoofed_blocks := md.blocks }

/-- Sum of record shapes that can reach `susfs_ctl`. -/
inductive Packet where
  | susPath : SusfsSusPath → Packet
  | externalDir : ExternalDir → Packet
  | hideSusMnts : SusfsHideSusMnts → Packet
  | susKstat : SusfsSusKstat → Packet
  | uname : SusfsUname → Packet
  | log : SusfsLog → Packet
  | spoofCmdline : SusfsSpoofCmdline → Packet
  | openRedirect : SusfsOpenRedirect → Packet
  | susMap : SusfsSusMap → Packet
  | avcLogSpoofing : SusfsAvcLogSpoofing → Packet
  | enabledFeatures : SusfsEnabledFeatures → Packet
  | variant : SusfsVariant → Packet
  | version : SusfsVersion → Packet

/-- The embedded signed status field of any record. -/
def errOf : Packet → Int
  | .susPath r => r.err
  | .externalDir r => r.err
  | .hideSusMnts r => r.err
  | .susKstat r => r.err
  | .uname r => r.err
  | .log r => r.err
  | .spoofCmdline r => r.err
  | .openRedirect r => r.err
  | .susMap r => r.err
  | .avcLogSpoofing r => r.err
  | .enabledFeatures r => r.err
  | .variant r => r.err
  | .version r => r.err

/-! ## Dispatcher (`susfs_cli`) — record construction up to the transport call -/

/-- One invocation of `susfs_cli`, with the external inputs the arm consumes
already gathered: `md` is the metadata `fetch_metadata` returned, `content`
the file contents read by the cmdline arm, path strings are the byte strings
the arm passes to `str_to_c_array` (canonicalized where the source
canonicalizes). -/
inductive Request where
  | addSusPath (path : List Nat) (md : Metadata)
  | addSusPathLoop (path : List Nat) (md : Metadata)
  | setAndroidDataRootPath (path : List Nat)
  | setSdcardRootPath (path : List Nat)
  | hideSusMntsForNonSuProcs (enabled : Nat)
  | addSusKstat (path : List Nat) (md : Metadata)
  | updateSusKstat (path : List Nat) (md : Metadata)
  | updateSusKstatFullClone (path : List Nat) (md : Metadata)
  | setUname (release version : List Nat)
  | enableLog (enabled : Nat)
  | setCmdlineOrBootconfig (content : List Nat)
  | addOpenRedirect (target_path redirected_path : List Nat) (md : Metadata)
  | addSusMap (path : List Nat)
  | enableAvcLogSpoofing (enabled : Nat)
  | showVersion
  | showEnabledFeatures
  | showVariant
  | addSusKstatStatically (path : List Nat) (md : Metadata)
      (ino dev nlink size atime atime_nsec mtime mtime_nsec ctime ctime_nsec blocks blksize :
        List Nat)

/-- The `AddSusKstatStatically` arm up to the transport call: the twelve
`parse_or_default` steps in source order, then the record assembly with the
source's `as` casts. -/
def buildStaticKstat (path : List Nat) (md : Metadata)
    (ino dev nlink size atime atime_nsec mtime mtime_nsec ctime ctime_nsec blocks blksize :
      List Nat) : Except Nat SusfsSusKstat :=
  match parse_or_defaultU64 ino md.ino with
  | .error e => .error e
  | .ok s_ino =>
    match parse_or_defaultU64 dev md.dev with
    | .error e => .error e
    | .ok s_dev =>
      match parse_or_defaultU64 nlink md.nlink with
      | .error e => .error e
      | .ok s_nlink =>
        match parse_or_defaultU64 size md.size with
        | .error e => .error e
        | .ok s_size =>
          match parse_or_defaultI64 atime md.atime with
          | .error e => .error e
          | .ok s_atime =>
            match parse_or_defaultI64 atime_nsec md.atime_nsec with
            | .error e => .error e
            | .ok s_atime_nsec =>
              match parse_or_defaultI64 mtime md.mtime with
              | .error e => .error e
              | .ok s_mtime =>
                match parse_or_defaultI64 mtime_nsec md.mtime_nsec with
                | .error e => .error e
                | .ok s_mtime_nsec =>
                  match parse_or_defaultI64 ctime md.ctime with
                  | .error e => .error e
                  | .ok s_ctime =>
                    match parse_or_defaultI64 ctime_nsec md.ctime_nsec with
                    | .error e => .error e
                    | .ok s_ctime_nsec =>
                      match parse_or_defaultU64 blocks md.blocks with
                      | .error e => .error e
                      | .ok s_blocks =>
                        match parse_or_defaultU64 blksize md.blksize with
                        | .error e => .error e
                        | .ok s_blksize =>
                          .ok { susKstatDefault with
                            target_ino := md.ino
                            is_statically := true
                            target_pathname :=
                              str_to_c_array path (List.replicate SUSFS_MAX_LEN_PATHNAME 0)
                            spoofed_ino := s_ino
                            spoofed_dev := s_dev
                            spoofed_nlink := toU32 s_nlink
                            spoofed_size := toI64 s_size
                            spoofed_atime_tv_sec := s_atime
                            spoofed_mtime_tv_sec := s_mtime
                            spoofed_ctime_tv_sec := s_ctime
                            spoofed_atime_tv_nsec := s_atime_nsec
                            spoofed_mtime_tv_nsec := s_mtime_nsec
                            spoofed_ctime_tv_nsec := s_ctime_nsec
                            spoofed_blksize := s_blksize
                            spoofed_blocks := s_blocks
                            err := ERR_CMD_NOT_SUPPORTED }

/-- `susfs_cli` up to (and excluding) the `susfs_ctl` call: local validation
and record encoding.  `Except.error code` models `exit(code)` before any
transport call; `Except.ok (record, cmd)` is the record and command
identifier handed to `susfs_ctl`. -/
def build : Request → Except Nat (Packet × Nat)
  | .addSusPath path md =>
      .ok (.susPath
        { target_ino := md.ino
          target_pathname := str_to_c_array path (List.replicate SUSFS_MAX_LEN_PATHNAME 0)
          i_uid := md.uid
          err := ERR_CMD_NOT_SUPPORTED }, CMD_SUSFS_ADD_SUS_PATH)
  | .addSusPathLoop path md =>
      .ok (.susPath
        { target_ino := md.ino
          target_pathname := str_to_c_array path (List.replicate SUSFS_MAX_LEN_PATHNAME 0)
          i_uid := md.uid
          err := ERR_CMD_NOT_SUPPORTED }, CMD_SUSFS_ADD_SUS_PATH_LOOP)
  | .setAndroidDataRootPath path =>
      .ok (.externalDir
        { target_pathname := str_to_c_array path (List.replicate SUSFS_MAX_LEN_PATHNAME 0)
          is_inited := false
          cmd := toI32 CMD_SUSFS_SET_ANDROID_DATA_ROOT_PATH
          err := ERR_CMD_NOT_SUPPORTED }, CMD_SUSFS_SET_ANDROID_DATA_ROOT_PATH)
  | .setSdcardRootPath path =>
      .ok (.externalDir
        { target_pathname := str_to_c_array path (List.replicate SUSFS_MAX_LEN_PATHNAME 0)
          is_inited := false
          cmd := toI32 CMD_SUSFS_SET_SDCARD_ROOT_PATH
          err := ERR_CMD_NOT_SUPPORTED }, CMD_SUSFS_SET_SDCARD_ROOT_PATH)
  | .hideSusMntsForNonSuProcs enabled =>
      if 1 < enabled then .error 1
      else
        .ok (.hideSusMnts
          { enabled := enabled == 1
            err := ERR_CMD_NOT_SUPPORTED }, CMD_SUSFS_HIDE_SUS_MNTS_FOR_NON_SU_PROCS)
  | .addSusKstat path md =>
      .ok (.susKstat
        (copy_metadata_to_sus_kstat
          { susKstatDefault with
            target_pathname := str_to_c_array path (List.replicate SUSFS_MAX_LEN_PATHNAME 0)
            is_statically := false
            target_ino := md.ino
            err := ERR_CMD_NOT_SUPPORTED } md), CMD_SUSFS_ADD_SUS_KSTAT)
  | .updateSusKstat path md =>
      .ok (.susKstat
        { susKstatDefault with
          target_pathname := str_to_c_array path (List.replicate SUSFS_MAX_LEN_PATHNAME 0)
          is_statically := false
          target_ino := md.ino
          spoofed_size := toI64 md.size
          spoofed_blocks := md.blocks
          err := ERR_CMD_NOT_SUPPORTED }, CMD_SUSFS_UPDATE_SUS_KSTAT)
  | .updateSusKstatFullClone path md =>
      .ok (.susKstat
        { susKstatDefault with
          target_pathname := str_to_c_array path (List.replicate SUSFS_MAX_LEN_PATHNAME 0)
          is_statically := false
          target_ino := md.ino
          err := ERR_CMD_NOT_SUPPORTED }, CMD_SUSFS_UPDATE_SUS_KSTAT)
  | .setUname release version =>
      .ok (.uname
        { release := str_to_c_array release (List.replicate (NEW_UTS_LEN + 1) 0)
          version := str_to_c_array version (List.replicate (NEW_UTS_LEN + 1) 0)
          err := ERR_CMD_NOT_SUPPORTED }, CMD_SUSFS_SET_UNAME)
  | .enableLog enabled =>
      if 1 < enabled then .error 1
      else
        .ok (.log
          { enabled := enabled == 1
            err := ERR_CMD_NOT_SUPPORTED }, CMD_SUSFS_ENABLE_LOG)
  | .setCmdlineOrBootconfig content =>
      if SUSFS_FAKE_CMDLINE_OR_BOOTCONFIG_SIZE ≤ content.length then .error EINVAL
      else
        .ok (.spoofCmdline
          { fake_cmdline_or_bootconfig :=
              write_bytes content (List.replicate SUSFS_FAKE_CMDLINE_OR_BOOTCONFIG_SIZE 0)
            err := ERR_CMD_NOT_SUPPORTED }, CMD_SUSFS_SET_CMDLINE_OR_BOOTCONFIG)
  | .addOpenRedirect target_path redirected_path md =>
      .ok (.openRedirect
        { target_ino := md.ino
          target_pathname := str_to_c_array target_path (List.replicate SUSFS_MAX_LEN_PATHNAME 0)
          redirected_pathname :=
            str_to_c_array redirected_path (List.replicate SUSFS_MAX_LEN_PATHNAME 0)
          err := ERR_CMD_NOT_SUPPORTED }, CMD_SUSFS_ADD_OPEN_REDIRECT)
  | .addSusMap path =>
      .ok (.susMap
        { target_pathname := str_to_c_array path (List.replicate SUSFS_MAX_LEN_PATHNAME 0)
          err := ERR_CMD_NOT_SUPPORTED }, CMD_SUSFS_ADD_SUS_MAP)
  | .enableAvcLogSpoofing enabled =>
      if 1 < enabled then .error 1
      else
        .ok (.avcLogSpoofing
          { enabled := enabled == 1
            err := ERR_CMD_NOT_SUPPORTED }, CMD_SUSFS_ENABLE_AVC_LOG_SPOOFING)
  | .showVersion =>
      .ok (.version
        { susfs_version := List.replicate SUSFS_MAX_VERSION_BUFSIZE 0
          err := ERR_CMD_NOT_SUPPORTED }, CMD_SUSFS_SHOW_VERSION)
  | .showEnabledFeatures =>
      .ok (.enabledFeatures
        { enabled_features := List.replicate SUSFS_ENABLED_FEATURES_SIZE 0
          err := ERR_CMD_NOT_SUPPORTED }, CMD_SUSFS_SHOW_ENABLED_FEATURES)
  | .showVariant =>
      .ok (.variant
        { susfs_variant := List.replicate SUSFS_MAX_VARIANT_BUFSIZE 0
          err := ERR_CMD_NOT_SUPPORTED }, CMD_SUSFS_SHOW_VARIANT)
  | .addSusKstatStatically path md ino dev nlink size atime atime_nsec mtime mtime_nsec ctime
      ctime_nsec blocks blksize =>
      match buildStaticKstat path md ino dev nlink size atime atime_nsec mtime mtime_nsec ctime
          ctime_nsec blocks blksize with
      | .error e => .error e
      | .ok r => .ok (.susKstat r, CMD_SUSFS_ADD_SUS_KSTAT_STATICALLY)

/-- The command identifier emitted by a request that reaches the transport. -/
def cmdEmitted (req : Request) : Option Nat :=
  match build req with
  | .ok (_, c) => some c
  | .error _ => none

/-! ## Subcommand / command-identifier registry -/

/-- The closed set of subcommands handled by `susfs_cli`, with the `Show`
subcommand split into its three read-only sub-modes. -/
inductive Subcmd where
  | addSusPath
  | addSusPathLoop
  | setAndroidDataRootPath
  | setSdcardRootPath
  | hideSusMntsForNonSuProcs
  | addSusKstat
  | updateSusKstat
  | updateSusKstatFullClone
  | setUname
  | enableLog
  | setCmdlineOrBootconfig
  | addOpenRedirect
  | addSusMap
  | enableAvcLogSpoofing
  | showVersion
  | showEnabledFeatures
  | showVariant
  | addSusKstatStatically
deriving DecidableEq, Fintype

/-- The command identifier each subcommand passes to `susfs_ctl`. -/
def cmdOf : Subcmd → Nat
  | .addSusPath => CMD_SUSFS_ADD_SUS_PATH
  | .addSusPathLoop => CMD_SUSFS_ADD_SUS_PATH_LOOP
  | .setAndroidDataRootPath => CMD_SUSFS_SET_ANDROID_DATA_ROOT_PATH
  | .setSdcardRootPath => CMD_SUSFS_SET_SDCARD_ROOT_PATH
  | .hideSusMntsForNonSuProcs => CMD_SUSFS_HIDE_SUS_MNTS_FOR_NON_SU_PROCS
  | .addSusKstat => CMD_SUSFS_ADD_SUS_KSTAT
  | .updateSusKstat => CMD_SUSFS_UPDATE_SUS_KSTAT
  | .updateSusKstatFullClone => CMD_SUSFS_UPDATE_SUS_KSTAT
  | .setUname => CMD_SUSFS_SET_UNAME
  | .enableLog => CMD_SUSFS_ENABLE_LOG
  | .setCmdlineOrBootconfig => CMD_SUSFS_SET_CMDLINE_OR_BOOTCONFIG
  | .addOpenRedirect => CMD_SUSFS_ADD_OPEN_REDIRECT
  | .addSusMap => CMD_SUSFS_ADD_SUS_MAP
  | .enableAvcLogSpoofing => CMD_SUSFS_ENABLE_AVC_LOG_SPOOFING
  | .showVersion => CMD_SUSFS_SHOW_VERSION
  | .showEnabledFeatures => CMD_SUSFS_SHOW_ENABLED_FEATURES
  | .showVariant => CMD_SUSFS_SHOW_VARIANT
  | .addSusKstatStatically => CMD_SUSFS_ADD_SUS_KSTAT_STATICALLY

/-! ## Show Version post-processing -/

/-- Text displayed by the `Show Version` arm on transport success: decode the
buffer to the first zero byte, substitute `"<invalid>"` for non-UTF-8 bytes,
then print the text only when it begins with the character `v`
(first byte 118), the fixed string `"unsupport"` otherwise. -/
def showVersionDisplay (buf : List Nat) : List Nat :=
  let bytes := c_str_decode buf
  let ver := if utf8Valid bytes then bytes else invalidStr
  if ver.head? = some 118 then ver else unsupportStr

/-- Final state of the `Show Version` arm after the transport call returned
and left status `err` and buffer `buf` in the record. -/
inductive ArmOutcome where
  | exited : Int → ArmOutcome
  | done : Option (List Nat) → ArmOutcome
deriving DecidableEq

/-- The `Show Version` arm after `susfs_ctl`: `handle_result` first (which may
terminate the process), then decode and print only when the status is 0. -/
def showVersionArm (err : Int) (buf : List Nat) : ArmOutcome :=
  match handle_result err CMD_SUSFS_SHOW_VERSION with
  | .exitErr c => .exited c
  | _ => if err = 0 then .done (some (showVersionDisplay buf)) else .done none

/-! ## Umount allow-list bookkeeping (src/userspace/ksud/src/umount.rs) -/

/-- The parsed shape of the JSON config file: `paths : HashMap<String, u32>`,
modelled as an association list. -/
structure UmountConfig where
  paths : List (String × Nat)
deriving DecidableEq

/-- The filesystem state seen by umount.rs: `none` when the config file does
not exist, `some none` when it exists but is not valid JSON, `some (some c)`
when it parses to `c`. -/
structure UmountWorld where
  file : Option (Option UmountConfig)
deriving DecidableEq

/-- A call into the kernel umount list (`ksucalls`). -/
inductive KCall where
  | add : String → Nat → KCall
  | del : String → KCall
deriving DecidableEq

/-- Behaviour of the kernel-side `ksucalls::umount_list_add/del` (code outside
src/): `true` models `Ok(())`, `false` an `Err` propagated by `?`. -/
structure KOracle where
  add : String → Nat → Bool
  del : String → Bool

/-- `HashMap::insert`: replace any existing binding of the key. -/
def insertPath (l : List (String × Nat)) (k : String) (v : Nat) : List (String × Nat) :=
  (k, v) :: l.filter (fun p => p.1 ≠ k)

/-- `HashMap::remove`. -/
def removePath (l : List (String × Nat)) (k : String) : List (String × Nat) :=
  l.filter (fun p => p.1 ≠ k)

/-- `add_umount(target_path, flags)`: returns `(result, filesystem state,
kernel calls issued)`.  The source inserts into the freshly parsed in-memory
map but never writes the file back, so the filesystem state is unchanged on
every path. -/
def add_umount (w : UmountWorld) (k : KOracle) (target_path : String) (flags : Nat) :
    Bool × UmountWorld × List KCall :=
  match w.file with
  | none => (true, w, [])
  | some none => (false, w, [])
  | some (some cfg) =>
      if k.add target_path flags then
        let _paths := insertPath cfg.paths target_path flags
        (true, w, [KCall.add target_path flags])
      else (false, w, [KCall.add target_path flags])

/-- `del_umount(target_path)`. -/
def del_umount (w : UmountWorld) (k : KOracle) (target_path : String) :
    Bool × UmountWorld × List KCall :=
  match w.file with
  | none => (true, w, [])
  | some none => (false, w, [])
  | some (some cfg) =>
      if k.del target_path then
        let _paths := removePath cfg.paths target_path
        (true, w, [KCall.del target_path])
      else (false, w, [KCall.del target_path])

/-- Replay loop of `load_umount_config`: `umount_list_add` per entry, stopping
at the first kernel error (`?`). -/
def replayCalls (k : KOracle) : List (String × Nat) → Bool × List KCall
  | [] => (true, [])
  | (p, f) :: rest =>
      if k.add p f then
        let r := replayCalls k rest
        (r.1, KCall.add p f :: r.2)
      else (false, [KCall.add p f])

/-- `load_umount_config()`: replays every entry of the parsed config through
`umount_list_add`. -/
def load_umount_config (w : UmountWorld) (k : KOracle) : Bool × List KCall :=
  match w.file with
  | none => (true, [])
  | some none => (false, [])
  | some (some cfg) => replayCalls k cfg.paths

/-- Kernel oracle whose calls all succeed. -/
def kOk : KOracle := ⟨fun _ _ => true, fun _ => true⟩

/-- A world whose config file exists and parses to an empty path map. -/
def emptyConfigWorld : UmountWorld := ⟨some (some ⟨[]⟩)⟩

/-- Concrete metadata used in witnesses. -/
def mdSample : Metadata :=
  { ino := 131074
    dev := 64769
    nlink := 2
    size := 4096
    uid := 1000
    atime := 1700000000
    atime_nsec := 123456789
    mtime := -5
    mtime_nsec := 0
    ctime := 1700000002
    ctime_nsec := 999999999
    blksize := 4096
    blocks := 8 }

/-! ## Helper lemmas -/

lemma foldl_rev_map_digits (M : List Nat) :
    ∀ a : Nat,
      List.foldl (fun x b => x * 10 + (b - 48)) a ((M.map (fun d => d + 48)).reverse)
        = a * 10 ^ M.length + Nat.ofDigits 10 M := by
  induction M with
  | nil => intro a; simp [Nat.ofDigits]
  | cons d T ih =>
      intro a
      simp only [List.map_cons, List.reverse_cons, List.foldl_append, List.foldl_cons,
        List.foldl_nil, ih, Nat.ofDigits_cons, List.length_cons, Nat.add_sub_cancel]
      ring

lemma digitsVal_natLit (n : Nat) : digitsVal (natLit n) = n := by
  by_cases h : n = 0
  · subst h; rfl
  · have := foldl_rev_map_digits (Nat.digits 10 n) 0
    simp only [natLit, if_neg h, digitsVal]
    simpa [Nat.ofDigits_digits] using this

lemma natLit_all_digits (n : Nat) : ∀ b ∈ natLit n, isDigit b = true := by
  intro b hb
  by_cases h : n = 0
  · subst h
    simp [natLit] at hb
    simp [hb, isDigit]
  · simp only [natLit, if_neg h, List.mem_reverse, List.mem_map] at hb
    obtain ⟨d, hd, rfl⟩ := hb
    have hlt : d < 10 := Nat.digits_lt_base (by norm_num) hd
    simp only [isDigit, Bool.and_eq_true, decide_eq_true_eq]
    omega

lemma natLit_ne_nil (n : Nat) : natLit n ≠ [] := by
  by_cases h : n = 0
  · subst h; simp [natLit]
  · simp [natLit, if_neg h, Nat.digits_ne_nil_iff_ne_zero.mpr h]

lemma natLit_head_digit (n : Nat) : ∀ b, (natLit n).head? = some b → isDigit b = true := by
  intro b hb
  have hne := natLit_ne_nil n
  have : b ∈ natLit n := by
    cases hl : natLit n with
    | nil => exact absurd hl hne
    | cons x xs => rw [hl] at hb; simp at hb; simp [hl, hb]
  exact natLit_all_digits n b this

lemma natLit_head_ne_plus (n : Nat) : (natLit n).head? ≠ some 43 := by
  intro h
  have := natLit_head_digit n 43 h
  simp [isDigit] at this

lemma natLit_head_ne_minus (n : Nat) : (natLit n).head? ≠ some 45 := by
  intro h
  have := natLit_head_digit n 45 h
  simp [isDigit] at this

lemma natLit_ne_default (n : Nat) : natLit n ≠ defaultStr := by
  intro h
  have : (100 : Nat) ∈ natLit n := by rw [h]; simp [defaultStr]
  have := natLit_all_digits n 100 this
  simp [isDigit] at this

lemma parseDigits_natLit (n : Nat) : parseDigits (natLit n) = some n := by
  simp [parseDigits, natLit_ne_nil n, List.all_eq_true.mpr (natLit_all_digits n),
    digitsVal_natLit]

lemma parseU64_natLit (n : Nat) (h : n < 2 ^ 64) : parseU64 (natLit n) = some n := by
  have h43 := natLit_head_ne_plus n
  simp [parseU64, h43, parseDigits_natLit, h]
  omega

lemma parseI64_intLit (i : Int) (h1 : -(2 ^ 63) ≤ i) (h2 : i < 2 ^ 63) :
    parseI64 (intLit i) = some i := by
  by_cases hneg : i < 0
  · have heq : intLit i = 45 :: natLit i.natAbs := by simp [intLit, hneg]
    have hle : i.natAbs ≤ 2 ^ 63 := by omega
    rw [heq]
    simp [parseI64, parseDigits_natLit, hle]
    exact ⟨by simpa using hle, by simp [abs_of_neg hneg]⟩
  · have h45 := natLit_head_ne_minus i.natAbs
    have h43 := natLit_head_ne_plus i.natAbs
    have heq : intLit i = natLit i.natAbs := by simp [intLit, hneg]
    have hlt : i.natAbs < 2 ^ 63 := by omega
    rw [heq]
    simp [parseI64, h45, h43, parseDigits_natLit, hlt]
    omega

lemma parse_or_defaultU64_default (d : Nat) : parse_or_defaultU64 defaultStr d = .ok d := by
  simp [parse_or_defaultU64]

lemma parse_or_defaultI64_default (d : Int) : parse_or_defaultI64 defaultStr d = .ok d := by
  simp [parse_or_defaultI64]

lemma parse_or_defaultU64_natLit (n d : Nat) (h : n < 2 ^ 64) :
    parse_or_defaultU64 (natLit n) d = .ok n := by
  simp [parse_or_defaultU64, natLit_ne_default n, parseU64_natLit n h]

lemma parse_or_defaultI64_intLit (i d : Int) (h1 : -(2 ^ 63) ≤ i) (h2 : i < 2 ^ 63) :
    parse_or_defaultI64 (intLit i) d = .ok i := by
  have hne : intLit i ≠ defaultStr := by
    intro h
    by_cases hneg : i < 0
    · simp only [intLit, if_pos hneg, defaultStr] at h
      exact absurd (List.head_eq_of_cons_eq h) (by norm_num)
    · simp only [intLit, if_neg hneg] at h
      exact natLit_ne_default i.natAbs h
  simp [parse_or_defaultI64, hne, parseI64_intLit i h1 h2]

lemma parse_or_defaultU64_bad {s : List Nat} (hs : s ≠ defaultStr) (hp : parseU64 s = none)
    (d : Nat) : parse_or_defaultU64 s d = .error EINVAL := by
  simp [parse_or_defaultU64, hs, hp]

lemma parse_or_defaultI64_bad {s : List Nat} (hs : s ≠ defaultStr) (hp : parseI64 s = none)
    (d : Int) : parse_or_defaultI64 s d = .error EINVAL := by
  simp [parse_or_defaultI64, hs, hp]

lemma takeWhile_append_zero (s t : List Nat) (h : ∀ b ∈ s, b ≠ 0) :
    (s ++ 0 :: t).takeWhile (fun b => b != 0) = s := by
  induction s with
  | nil => simp
  | cons a s ih =>
      have ha : (a != 0) = true := by
        simpa using h a (by simp)
      rw [List.cons_append,
        @List.takeWhile_cons_of_pos _ (fun b => b != 0) a (s ++ 0 :: t) ha,
        ih (fun b hb => h b (List.mem_cons_of_mem a hb))]

lemma buildStaticKstat_err (p : List Nat) (md : Metadata)
    (a1 a2 a3 a4 a5 a6 a7 a8 a9 a10 a11 a12 : List Nat) (r : SusfsSusKstat)
    (h : buildStaticKstat p md a1 a2 a3 a4 a5 a6 a7 a8 a9 a10 a11 a12 = .ok r) :
    r.err = ERR_CMD_NOT_SUPPORTED := by
  unfold buildStaticKstat at h
  repeat' split at h
  all_goals cases h
  all_goals rfl

/-! ## Additional helper lemmas for the claim theorems -/

lemma take_length_append (l t : List Nat) : (l ++ t).take l.length = l := by
  induction l with
  | nil => simp
  | cons a l ih => simp [ih]

/-! ## Claim theorems -/

/-- Claim C1, counterexample: the subcommand → command-identifier mapping is
not injective.  `UpdateSusKstat` and `UpdateSusKstatFullClone` are distinct
subcommands, yet both issue `CMD_SUSFS_UPDATE_SUS_KSTAT = 0x55571` through the
transport, as witnessed both by the registry `cmdOf` and by the command
identifier actually emitted by the dispatcher `build`. -/
theorem c1_counterexample :
    cmdOf Subcmd.updateSusKstat = cmdOf Subcmd.updateSusKstatFullClone ∧
    Subcmd.updateSusKstat ≠ Subcmd.updateSusKstatFullClone ∧
    cmdEmitted (.updateSusKstat [47] mdSample) = some 0x55571 ∧
    cmdEmitted (.updateSusKstatFullClone [47] mdSample) = some 0x55571 :=
  ⟨rfl, by decide, rfl, rfl⟩

/-- Claim C1 (amended): the mapping from subcommand to command identifier is
total (it is a function) and injective except for the single collision pair:
`UpdateSusKstat` and `UpdateSusKstatFullClone` both issue `0x55571`. -/
theorem c1_cmd_injective_except_update :
    ∀ a b : Subcmd, cmdOf a = cmdOf b →
      a = b ∨ (a = .updateSusKstat ∧ b = .updateSusKstatFullClone) ∨
        (a = .updateSusKstatFullClone ∧ b = .updateSusKstat) := by
  decide

/-- Witness for `c1_cmd_injective_except_update` at the collision pair. -/
theorem c1_cmd_injective_except_update_witness :
    Subcmd.updateSusKstat = Subcmd.updateSusKstatFullClone ∨
      (Subcmd.updateSusKstat = Subcmd.updateSusKstat ∧
        Subcmd.updateSusKstatFullClone = Subcmd.updateSusKstatFullClone) ∨
      (Subcmd.updateSusKstat = Subcmd.updateSusKstatFullClone ∧
        Subcmd.updateSusKstatFullClone = Subcmd.updateSusKstat) :=
  c1_cmd_injective_except_update .updateSusKstat .updateSusKstatFullClone rfl

/-- A world whose config file exists and parses to the single entry
`("/a", 0)`. -/
def oneEntryWorld : UmountWorld := ⟨some (some ⟨[("/a", 0)]⟩)⟩

/-- Claim C2, code bug: with an existing, well-formed config file,
`add_umount` returns success but leaves the file unchanged (the insert into
the freshly parsed map is dropped; nothing is written back), so a later
`load_umount_config` replays nothing; symmetrically `del_umount` returns
success yet the deleted entry is still replayed afterwards. -/
theorem c2_entry_not_persisted :
    (add_umount emptyConfigWorld kOk "/a" 7).1 = true ∧
    (add_umount emptyConfigWorld kOk "/a" 7).2.1 = emptyConfigWorld ∧
    (load_umount_config (add_umount emptyConfigWorld kOk "/a" 7).2.1 kOk).2 = [] ∧
    (del_umount oneEntryWorld kOk "/a").1 = true ∧
    (del_umount oneEntryWorld kOk "/a").2.1 = oneEntryWorld ∧
    (load_umount_config (del_umount oneEntryWorld kOk "/a").2.1 kOk).2 =
      [KCall.add "/a" 0] :=
  ⟨rfl, rfl, rfl, rfl, rfl, rfl⟩

/-- Claim C4: post-call status decoding is three-way.  Status 0 is success;
status 126 is classified as "unsupported operation" carrying the command
identifier, distinctly from generic failure; any other nonzero status
terminates the operation with process exit code equal to the status. -/
theorem c4_handle_result_classification :
    ∀ (err : Int) (cmd : Nat),
      (err = 0 → handle_result err cmd = .success) ∧
      (err = 126 → handle_result err cmd = .unsupported cmd) ∧
      (err ≠ 0 → err ≠ 126 → handle_result err cmd = .exitErr err) := by
  intro err cmd
  refine ⟨fun h => ?_, fun h => ?_, fun h1 h2 => ?_⟩
  · subst h; rfl
  · subst h; rfl
  · simp [handle_result, ERR_CMD_NOT_SUPPORTED, h1, h2]

/-- Witness for `c4_handle_result_classification` at statuses 0, 126 and 7. -/
theorem c4_handle_result_classification_witness :
    handle_result 0 5 = .success ∧ handle_result 126 5 = .unsupported 5 ∧
      handle_result 7 5 = .exitErr 7 :=
  ⟨(c4_handle_result_classification 0 5).1 rfl,
   (c4_handle_result_classification 126 5).2.1 rfl,
   (c4_handle_result_classification 7 5).2.2 (by decide) (by decide)⟩

/-- Claim C6, counterexample: the round trip fails for a short string that
contains an interior zero byte.  `[118, 0]` has byte length 2 < 15 =
capacity − 1, yet encoding then scanning to the first zero byte returns
`[118]`, not `[118, 0]`. -/
theorem c6_counterexample :
    ([118, 0] : List Nat).length < (List.replicate 16 (0 : Nat)).length - 1 ∧
    c_str_decode (str_to_c_array [118, 0] (List.replicate 16 0)) ≠ [118, 0] := by
  decide

/-- Claim C6 (amended): for every string of byte length strictly less than
capacity − 1 that contains no zero byte, encoding with `str_to_c_array` and
decoding by scanning to the first zero byte yields exactly the string. -/
theorem c6_roundtrip (s arr : List Nat) (h1 : s.length < arr.length - 1)
    (h2 : ∀ b ∈ s, b ≠ 0) : c_str_decode (str_to_c_array s arr) = s := by
  have hlen : min s.length (arr.length - 1) = s.length := Nat.min_eq_left (Nat.le_of_lt h1)
  simp only [str_to_c_array, c_str_decode, hlen, List.take_length]
  exact takeWhile_append_zero s _ h2

/-- Witness for `c6_roundtrip` on the bytes of `"v1.5"` and a 16-byte buffer. -/
theorem c6_roundtrip_witness :
    c_str_decode (str_to_c_array [118, 49, 46, 53] (List.replicate 16 0)) =
      [118, 49, 46, 53] :=
  c6_roundtrip [118, 49, 46, 53] (List.replicate 16 0) (by decide) (by decide)

/-- Claim C7: for every string of byte length at least capacity − 1,
`str_to_c_array` produces exactly the first capacity − 1 bytes of the string
followed immediately by a zero byte (truncation, not rejection). -/
theorem c7_truncating_encode (s arr : List Nat) (h0 : 0 < arr.length)
    (h1 : arr.length - 1 ≤ s.length) :
    str_to_c_array s arr = s.take (arr.length - 1) ++ [0] := by
  have hlen : min s.length (arr.length - 1) = arr.length - 1 := Nat.min_eq_right h1
  have hdrop : arr.drop (arr.length - 1 + 1) = [] := by
    rw [Nat.sub_add_cancel h0]
    exact List.drop_length arr
  simp [str_to_c_array, hlen, hdrop]

/-- Witness for `c7_truncating_encode`: a 20-byte string into a 16-byte
buffer keeps the first 15 bytes and terminates with a zero. -/
theorem c7_truncating_encode_witness :
    str_to_c_array (List.replicate 20 65) (List.replicate 16 0) =
      (List.replicate 20 65).take 15 ++ [0] :=
  c7_truncating_encode (List.replicate 20 65) (List.replicate 16 0) (by decide) (by decide)

/-- Claim C10: when the umount config file does not exist, `add_umount` and
`del_umount` return success immediately, without issuing any kernel-side
umount-list call and without touching the filesystem. -/
theorem c10_missing_config_skips (w : UmountWorld) (k : KOracle) (p : String) (flags : Nat)
    (h : w.file = none) :
    add_umount w k p flags = (true, w, []) ∧ del_umount w k p = (true, w, []) := by
  obtain ⟨f⟩ := w
  cases h
  exact ⟨rfl, rfl⟩

/-- Witness for `c10_missing_config_skips` on a world without a config file. -/
theorem c10_missing_config_skips_witness :
    add_umount ⟨none⟩ kOk "/a" 1 = (true, ⟨none⟩, []) ∧
      del_umount ⟨none⟩ kOk "/a" = (true, ⟨none⟩, []) :=
  c10_missing_config_skips ⟨none⟩ kOk "/a" 1 rfl

/-- Claim C3: every record that reaches the transport carries the signed
status field initialized to the "not supported" sentinel 126 at the moment
`susfs_ctl` is invoked, for every operation and all inputs. -/
theorem c3_err_initialized (req : Request) (pkt : Packet) (cmd : Nat)
    (h : build req = .ok (pkt, cmd)) : errOf pkt = ERR_CMD_NOT_SUPPORTED := by
  cases req with
  | addSusPath path md =>
      simp only [build, Except.ok.injEq, Prod.mk.injEq] at h
      obtain ⟨rfl, rfl⟩ := h
      rfl
  | addSusPathLoop path md =>
      simp only [build, Except.ok.injEq, Prod.mk.injEq] at h
      obtain ⟨rfl, rfl⟩ := h
      rfl
  | setAndroidDataRootPath path =>
      simp only [build, Except.ok.injEq, Prod.mk.injEq] at h
      obtain ⟨rfl, rfl⟩ := h
      rfl
  | setSdcardRootPath path =>
      simp only [build, Except.ok.injEq, Prod.mk.injEq] at h
      obtain ⟨rfl, rfl⟩ := h
      rfl
  | hideSusMntsForNonSuProcs enabled =>
      simp only [build] at h
      split at h
      · cases h
      · simp only [Except.ok.injEq, Prod.mk.injEq] at h
        obtain ⟨rfl, rfl⟩ := h
        rfl
  | addSusKstat path md =>
      simp only [build, Except.ok.injEq, Prod.mk.injEq] at h
      obtain ⟨rfl, rfl⟩ := h
      rfl
  | updateSusKstat path md =>
      simp only [build, Except.ok.injEq, Prod.mk.injEq] at h
      obtain ⟨rfl, rfl⟩ := h
      rfl
  | updateSusKstatFullClone path md =>
      simp only [build, Except.ok.injEq, Prod.mk.injEq] at h
      obtain ⟨rfl, rfl⟩ := h
      rfl
  | setUname release version =>
      simp only [build, Except.ok.injEq, Prod.mk.injEq] at h
      obtain ⟨rfl, rfl⟩ := h
      rfl
  | enableLog enabled =>
      simp only [build] at h
      split at h
      · cases h
      · simp only [Except.ok.injEq, Prod.mk.injEq] at h
        obtain ⟨rfl, rfl⟩ := h
        rfl
  | setCmdlineOrBootconfig content =>
      simp only [build] at h
      split at h
      · cases h
      · simp only [Except.ok.injEq, Prod.mk.injEq] at h
        obtain ⟨rfl, rfl⟩ := h
        rfl
  | addOpenRedirect target_path redirected_path md =>
      simp only [build, Except.ok.injEq, Prod.mk.injEq] at h
      obtain ⟨rfl, rfl⟩ := h
      rfl
  | addSusMap path =>
      simp only [build, Except.ok.injEq, Prod.mk.injEq] at h
      obtain ⟨rfl, rfl⟩ := h
      rfl
  | enableAvcLogSpoofing enabled =>
      simp only [build] at h
      split at h
      · cases h
      · simp only [Except.ok.injEq, Prod.mk.injEq] at h
        obtain ⟨rfl, rfl⟩ := h
        rfl
  | showVersion =>
      simp only [build, Except.ok.injEq, Prod.mk.injEq] at h
      obtain ⟨rfl, rfl⟩ := h
      rfl
  | showEnabledFeatures =>
      simp only [build, Except.ok.injEq, Prod.mk.injEq] at h
      obtain ⟨rfl, rfl⟩ := h
      rfl
  | showVariant =>
      simp only [build, Except.ok.injEq, Prod.mk.injEq] at h
      obtain ⟨rfl, rfl⟩ := h
      rfl
  | addSusKstatStatically path md ino dev nlink size atime atime_nsec mtime mtime_nsec
      ctime ctime_nsec blocks blksize =>
      simp only [build] at h
      split at h
      · cases h
      · rename_i r heq
        simp only [Except.ok.injEq, Prod.mk.injEq] at h
        obtain ⟨rfl, rfl⟩ := h
        exact buildStaticKstat_err path md ino dev nlink size atime atime_nsec mtime
          mtime_nsec ctime ctime_nsec blocks blksize r heq

/-- Witness for `c3_err_initialized`: the `Show Version` record handed to the
transport has status 126. -/
theorem c3_err_initialized_witness :
    errOf (Packet.version
      { susfs_version := List.replicate SUSFS_MAX_VERSION_BUFSIZE 0
        err := ERR_CMD_NOT_SUPPORTED }) = ERR_CMD_NOT_SUPPORTED :=
  c3_err_initialized Request.showVersion _ CMD_SUSFS_SHOW_VERSION rfl

/-- Claim C5: for the cmdline/bootconfig payload operation, a file content of
length ≥ 8192 fails locally with `EINVAL` and no record reaches the transport;
content strictly shorter than 8192 bytes is copied into the 8192-byte record
buffer without truncation (the buffer's prefix is exactly the content). -/
theorem c5_cmdline_size_check (content : List Nat) :
    (SUSFS_FAKE_CMDLINE_OR_BOOTCONFIG_SIZE ≤ content.length →
      build (.setCmdlineOrBootconfig content) = .error EINVAL) ∧
    (content.length < SUSFS_FAKE_CMDLINE_OR_BOOTCONFIG_SIZE →
      ∃ r : SusfsSpoofCmdline,
        build (.setCmdlineOrBootconfig content) =
          .ok (.spoofCmdline r, CMD_SUSFS_SET_CMDLINE_OR_BOOTCONFIG) ∧
        r.fake_cmdline_or_bootconfig.take content.length = content ∧
        r.fake_cmdline_or_bootconfig.length = SUSFS_FAKE_CMDLINE_OR_BOOTCONFIG_SIZE) := by
  constructor
  · intro h
    simp [build, h]
  · intro h
    have h' : ¬ SUSFS_FAKE_CMDLINE_OR_BOOTCONFIG_SIZE ≤ content.length := Nat.not_le.mpr h
    refine ⟨SusfsSpoofCmdline.mk
      (write_bytes content (List.replicate SUSFS_FAKE_CMDLINE_OR_BOOTCONFIG_SIZE 0))
      ERR_CMD_NOT_SUPPORTED, ?_, ?_, ?_⟩
    · simp [build, h']
    · simp only [write_bytes]
      exact take_length_append content _
    · simp only [write_bytes, List.length_append, List.length_drop, List.length_replicate,
        SUSFS_FAKE_CMDLINE_OR_BOOTCONFIG_SIZE] at h ⊢
      omega

/-- Witness for `c5_cmdline_size_check`: an 8192-byte content is rejected
before transport; a 1-byte content is copied intact. -/
theorem c5_cmdline_size_check_witness :
    build (.setCmdlineOrBootconfig (List.replicate 8192 0)) = .error EINVAL ∧
    ∃ r : SusfsSpoofCmdline,
      build (.setCmdlineOrBootconfig [49]) =
        .ok (.spoofCmdline r, CMD_SUSFS_SET_CMDLINE_OR_BOOTCONFIG) ∧
      r.fake_cmdline_or_bootconfig.take 1 = [49] ∧
      r.fake_cmdline_or_bootconfig.length = SUSFS_FAKE_CMDLINE_OR_BOOTCONFIG_SIZE :=
  ⟨(c5_cmdline_size_check (List.replicate 8192 0)).1
      (by rw [List.length_replicate]; exact Nat.le.refl),
   (c5_cmdline_size_check [49]).2 (by decide)⟩

/-- Claim C9, counterexample: with transport status 0, the buffer
`[118, 255, 0, …]` decodes (scan to the first zero byte) to `[118, 255]`,
which begins with the byte of `v`, yet the arm prints the fixed fallback
`"unsupport"` because the bytes are not valid UTF-8 — so "printed iff the
decoded bytes begin with `v`" fails as stated. -/
theorem c9_counterexample :
    showVersionArm 0 (118 :: 255 :: List.replicate 14 0) = .done (some unsupportStr) ∧
    (c_str_decode (118 :: 255 :: List.replicate 14 0)).head? = some 118 ∧
    c_str_decode (118 :: 255 :: List.replicate 14 0) ≠ unsupportStr := by
  decide

/-- Claim C9 (amended): for the version query with transport status 0, the
decoded bytes (scan to first zero byte) are printed if and only if they are
valid UTF-8 and begin with the character `v`; otherwise the fixed string
`"unsupport"` is printed; in both cases the arm terminates without an error
exit. -/
theorem c9_version_display (buf : List Nat) :
    showVersionArm 0 buf =
      .done (some (if utf8Valid (c_str_decode buf) = true ∧
          (c_str_decode buf).head? = some 118
        then c_str_decode buf else unsupportStr)) := by
  have hh : handle_result 0 CMD_SUSFS_SHOW_VERSION = .success := by decide
  simp only [showVersionArm, hh, if_pos rfl]
  by_cases hv : utf8Valid (c_str_decode buf) = true
  · by_cases hd : (c_str_decode buf).head? = some 118
    · simp [showVersionDisplay, hv, hd]
    · simp [showVersionDisplay, hv, hd]
  · simp [showVersionDisplay, hv, invalidStr, unsupportStr]

/-- Claim C8: for the static-kstat operation, supplying the decimal literal of
the real metadata value of any of the twelve spoofable fields encodes the same
record as supplying the marker `"default"`; and supplying a string that is
neither `"default"` nor a valid numeric literal for the field's type makes the
operation fail locally with `EINVAL` (so no record reaches the transport).
The twelve failure conjuncts place the bad string in each field position in
turn (ino, dev, nlink, size, atime, atime_nsec, mtime, mtime_nsec, ctime,
ctime_nsec, blocks, blksize), with the remaining fields left at `"default"`. -/
theorem c8_static_default_equivalence (path : List Nat) (md : Metadata)
    (hino : md.ino < 2 ^ 64) (hdev : md.dev < 2 ^ 64) (hnlink : md.nlink < 2 ^ 64)
    (hsize : md.size < 2 ^ 64) (hblocks : md.blocks < 2 ^ 64) (hblksize : md.blksize < 2 ^ 64)
    (hat1 : -(2 ^ 63) ≤ md.atime) (hat2 : md.atime < 2 ^ 63)
    (han1 : -(2 ^ 63) ≤ md.atime_nsec) (han2 : md.atime_nsec < 2 ^ 63)
    (hmt1 : -(2 ^ 63) ≤ md.mtime) (hmt2 : md.mtime < 2 ^ 63)
    (hmn1 : -(2 ^ 63) ≤ md.mtime_nsec) (hmn2 : md.mtime_nsec < 2 ^ 63)
    (hct1 : -(2 ^ 63) ≤ md.ctime) (hct2 : md.ctime < 2 ^ 63)
    (hcn1 : -(2 ^ 63) ≤ md.ctime_nsec) (hcn2 : md.ctime_nsec < 2 ^ 63) :
    (build (.addSusKstatStatically path md (natLit md.ino) (natLit md.dev) (natLit md.nlink)
        (natLit md.size) (intLit md.atime) (intLit md.atime_nsec) (intLit md.mtime)
        (intLit md.mtime_nsec) (intLit md.ctime) (intLit md.ctime_nsec) (natLit md.blocks)
        (natLit md.blksize)) =
      build (.addSusKstatStatically path md defaultStr defaultStr defaultStr defaultStr
        defaultStr defaultStr defaultStr defaultStr defaultStr defaultStr defaultStr
        defaultStr)) ∧
    (∀ s, s ≠ defaultStr → parseU64 s = none →
      build (.addSusKstatStatically path md s defaultStr defaultStr defaultStr defaultStr
        defaultStr defaultStr defaultStr defaultStr defaultStr defaultStr defaultStr) =
        .error EINVAL) ∧
    (∀ s, s ≠ defaultStr → parseU64 s = none →
      build (.addSusKstatStatically path md defaultStr s defaultStr defaultStr defaultStr
        defaultStr defaultStr defaultStr defaultStr defaultStr defaultStr defaultStr) =
        .error EINVAL) ∧
    (∀ s, s ≠ defaultStr → parseU64 s = none →
      build (.addSusKstatStatically path md defaultStr defaultStr s defaultStr defaultStr
        defaultStr defaultStr defaultStr defaultStr defaultStr defaultStr defaultStr) =
        .error EINVAL) ∧
    (∀ s, s ≠ defaultStr → parseU64 s = none →
      build (.addSusKstatStatically path md defaultStr defaultStr defaultStr s defaultStr
        defaultStr defaultStr defaultStr defaultStr defaultStr defaultStr defaultStr) =
        .error EINVAL) ∧
    (∀ s, s ≠ defaultStr → parseI64 s = none →
      build (.addSusKstatStatically path md defaultStr defaultStr defaultStr defaultStr s
        defaultStr defaultStr defaultStr defaultStr defaultStr defaultStr defaultStr) =
        .error EINVAL) ∧
    (∀ s, s ≠ defaultStr → parseI64 s = none →
      build (.addSusKstatStatically path md defaultStr defaultStr defaultStr defaultStr
        defaultStr s defaultStr defaultStr defaultStr defaultStr defaultStr defaultStr) =
        .error EINVAL) ∧
    (∀ s, s ≠ defaultStr → parseI64 s = none →
      build (.addSusKstatStatically path md defaultStr defaultStr defaultStr defaultStr
        defaultStr defaultStr s defaultStr defaultStr defaultStr defaultStr defaultStr) =
        .error EINVAL) ∧
    (∀ s, s ≠ defaultStr → parseI64 s = none →
      build (.addSusKstatStatically path md defaultStr defaultStr defaultStr defaultStr
        defaultStr defaultStr defaultStr s defaultStr defaultStr defaultStr defaultStr) =
        .error EINVAL) ∧
    (∀ s, s ≠ defaultStr → parseI64 s = none →
      build (.addSusKstatStatically path md defaultStr defaultStr defaultStr defaultStr
        defaultStr defaultStr defaultStr defaultStr s defaultStr defaultStr defaultStr) =
        .error EINVAL) ∧
    (∀ s, s ≠ defaultStr → parseI64 s = none →
      build (.addSusKstatStatically path md defaultStr defaultStr defaultStr defaultStr
        defaultStr defaultStr defaultStr defaultStr defaultStr s defaultStr defaultStr) =
        .error EINVAL) ∧
    (∀ s, s ≠ defaultStr → parseU64 s = none →
      build (.addSusKstatStatically path md defaultStr defaultStr defaultStr defaultStr
        defaultStr defaultStr defaultStr defaultStr defaultStr defaultStr s defaultStr) =
        .error EINVAL) ∧
    (∀ s, s ≠ defaultStr → parseU64 s = none →
      build (.addSusKstatStatically path md defaultStr defaultStr defaultStr defaultStr
        defaultStr defaultStr defaultStr defaultStr defaultStr defaultStr defaultStr s) =
        .error EINVAL) := by
  refine ⟨?_, ?_, ?_, ?_, ?_, ?_, ?_, ?_, ?_, ?_, ?_, ?_, ?_⟩
  · simp only [build, buildStaticKstat,
      parse_or_defaultU64_natLit md.ino md.ino hino,
      parse_or_defaultU64_natLit md.dev md.dev hdev,
      parse_or_defaultU64_natLit md.nlink md.nlink hnlink,
      parse_or_defaultU64_natLit md.size md.size hsize,
      parse_or_defaultU64_natLit md.blocks md.blocks hblocks,
      parse_or_defaultU64_natLit md.blksize md.blksize hblksize,
      parse_or_defaultI64_intLit md.atime md.atime hat1 hat2,
      parse_or_defaultI64_intLit md.atime_nsec md.atime_nsec han1 han2,
      parse_or_defaultI64_intLit md.mtime md.mtime hmt1 hmt2,
      parse_or_defaultI64_intLit md.mtime_nsec md.mtime_nsec hmn1 hmn2,
      parse_or_defaultI64_intLit md.ctime md.ctime hct1 hct2,
      parse_or_defaultI64_intLit md.ctime_nsec md.ctime_nsec hcn1 hcn2,
      parse_or_defaultU64_default, parse_or_defaultI64_default]
  all_goals
    intro s hs hp
    first
      | simp only [build, buildStaticKstat, parse_or_defaultU64_default,
          parse_or_defaultI64_default, parse_or_defaultU64_bad hs hp]
      | simp only [build, buildStaticKstat, parse_or_defaultU64_default,
          parse_or_defaultI64_default, parse_or_defaultI64_bad hs hp]

/-- Witness for `c8_static_default_equivalence` on concrete metadata: the
literal strings of the real values encode the same record as all-"default";
the non-numeric string `"x"` in the ino position and in the atime position
each abort with `EINVAL`. -/
theorem c8_static_default_equivalence_witness :
    (build (.addSusKstatStatically [47, 97] mdSample (natLit mdSample.ino)
        (natLit mdSample.dev) (natLit mdSample.nlink) (natLit mdSample.size)
        (intLit mdSample.atime) (intLit mdSample.atime_nsec) (intLit mdSample.mtime)
        (intLit mdSample.mtime_nsec) (intLit mdSample.ctime) (intLit mdSample.ctime_nsec)
        (natLit mdSample.blocks) (natLit mdSample.blksize)) =
      build (.addSusKstatStatically [47, 97] mdSample defaultStr defaultStr defaultStr
        defaultStr defaultStr defaultStr defaultStr defaultStr defaultStr defaultStr
        defaultStr defaultStr)) ∧
    build (.addSusKstatStatically [47, 97] mdSample [120] defaultStr defaultStr defaultStr
      defaultStr defaultStr defaultStr defaultStr defaultStr defaultStr defaultStr
      defaultStr) = .error EINVAL ∧
    build (.addSusKstatStatically [47, 97] mdSample defaultStr defaultStr defaultStr
      defaultStr [120] defaultStr defaultStr defaultStr defaultStr defaultStr defaultStr
      defaultStr) = .error EINVAL := by
  have h := c8_static_default_equivalence [47, 97] mdSample (by decide) (by decide)
    (by decide) (by decide) (by decide) (by decide) (by decide) (by decide) (by decide)
    (by decide) (by decide) (by decide) (by decide) (by decide) (by decide) (by decide)
    (by decide) (by decide)
  exact ⟨h.1, h.2.1 [120] (by decide) (by decide),
    h.2.2.2.2.2.1 [120] (by decide) (by decide)⟩
